import Mathlib

/-
Verification of the retail conversational-commerce backend (src/server.js).

The definitions below are a shallow embedding of the orchestrator, written
directly from the JavaScript source:

  * classifyIntent         -- src/server.js lines 650-731 (keyword fallback and
                              coercion of the external classifier outcome)
  * loyaltyAgent           -- src/server.js lines 541-571
  * checkInventory         -- src/server.js lines 340-389 (incl. the
                              fulfillment-option derivation, lines 372-384)
  * runCheckoutSaga        -- the "checkout" case of runRetailOrchestrator,
                              src/server.js lines 815-875, with the external
                              outcomes (payment gateway, order insert,
                              fulfillment scheduler) passed as parameters
  * checkoutFallbackReply  -- the no-LLM reply template, lines 925-933
  * channelSwitched        -- src/server.js line 759
  * addToCart              -- the cart merge rule of POST /cart,
                              src/server.js lines 1196-1217

JavaScript truthiness (null, undefined, "" and 0 being falsy) is modelled
explicitly where the source relies on it.
-/

namespace Retail

/-- JS `x || d` for an optional string: null/undefined and the empty string
are falsy and fall through to the default. -/
def jsStrOr (x : Option String) (d : String) : String :=
  match x with
  | none => d
  | some s => if s = "" then d else s

/-- JS `x || d` for a number: 0 (and a missing value) is falsy and falls
through to the default. -/
def jsNumOr (x d : ℚ) : ℚ :=
  if x = 0 then d else x

/-- JS `x || 0` for a possibly-missing integer column (`inv.stock || 0`). -/
def jsIntOr (x : Option ℤ) : ℤ :=
  x.getD 0

/-- Boolean test that the first character list starts the second
(helper for substring search). -/
def leadsWith : List Char → List Char → Bool
  | [], _ => true
  | _ :: _, [] => false
  | p :: ps, c :: cs => p == c && leadsWith ps cs

/-- Boolean test that a character list occurs contiguously inside another
(helper for substring search). -/
def occursIn (pat : List Char) : List Char → Bool
  | [] => pat.isEmpty
  | c :: rest => leadsWith pat (c :: rest) || occursIn pat rest

/-- JS `s.includes(pat)`: contiguous substring containment. -/
def strIncludes (s pat : String) : Bool :=
  occursIn pat.toList s.toList

/-- ASCII lower-casing of one character (what JS toLowerCase does on the
ASCII utterances involved). -/
def lowerChar (c : Char) : Char :=
  if 65 ≤ c.toNat ∧ c.toNat ≤ 90 then Char.ofNat (c.toNat + 32) else c

/-- JS `s.toLowerCase()`, character-wise ASCII lower-casing. -/
def toLowerStr (s : String) : String :=
  ⟨s.data.map lowerChar⟩

/-- The IntentPlan shape returned by classifyIntent (src/server.js 651-657). -/
structure IntentPlan where
  intent : String
  target_skus : List String
  occasion : Option String
  payment_method : Option String
  fulfillment_mode : Option String
deriving DecidableEq, Repr

/-- The defaultIntent object (src/server.js 651-657). -/
def defaultIntent : IntentPlan :=
  { intent := "recommend"
    target_skus := []
    occasion := none
    payment_method := none
    fulfillment_mode := none }

/-- The deterministic keyword matcher used when OpenAI is not configured
(src/server.js 659-679): lower-case the utterance, then test substrings in
this order: stock/available/inventory, buy/purchase/checkout/pay,
order/status/track/return, hi/hello/hey, otherwise the default plan. -/
def keywordClassify (userQuery : String) : IntentPlan :=
  let lowerQuery := toLowerStr userQuery
  if strIncludes lowerQuery "stock" || strIncludes lowerQuery "available" ||
      strIncludes lowerQuery "inventory" then
    { defaultIntent with intent := "check_inventory" }
  else if strIncludes lowerQuery "buy" || strIncludes lowerQuery "purchase" ||
      strIncludes lowerQuery "checkout" || strIncludes lowerQuery "pay" then
    { defaultIntent with intent := "checkout" }
  else if strIncludes lowerQuery "order" || strIncludes lowerQuery "status" ||
      strIncludes lowerQuery "track" || strIncludes lowerQuery "return" then
    { defaultIntent with intent := "post_purchase" }
  else if strIncludes lowerQuery "hi" || strIncludes lowerQuery "hello" ||
      strIncludes lowerQuery "hey" then
    { defaultIntent with intent := "smalltalk" }
  else
    defaultIntent

/-- Outcome of the external classification capability: not configured
(`!openai`, src/server.js 659), the call or the JSON parse threw (the catch
block, lines 726-730), or it returned a parsed plan (lines 717-725). -/
inductive ClassifierOutcome where
  | unavailable : ClassifierOutcome
  | threw : ClassifierOutcome
  | ok : IntentPlan → ClassifierOutcome

/-- The closed intent set (src/server.js 720). -/
def validIntents : List String :=
  ["recommend", "check_inventory", "checkout", "post_purchase", "smalltalk"]

/-- classifyIntent, src/server.js 650-731, as a function of the external
capability outcome: without OpenAI it runs the keyword matcher; when the
external call throws it returns the default plan from the catch block; on a
parsed response it coerces any intent outside the closed set to
"recommend". -/
def classifyIntent (outcome : ClassifierOutcome) (userQuery : String) : IntentPlan :=
  match outcome with
  | .unavailable => keywordClassify userQuery
  | .threw => defaultIntent
  | .ok parsed =>
    if validIntents.contains parsed.intent then parsed
    else { parsed with intent := "recommend" }

/-- A loyalty tier rule (the loyalty_rules fallback object, src/server.js
60-68). -/
structure TierRule where
  max_discount_percent : ℚ
  points_multiplier : ℚ
deriving DecidableEq, Repr

/-- Tier lookup `loyaltyRules.tiers?.[tier] || {max_discount_percent: 5,
points_multiplier: 1}` (src/server.js 544, with the default table of lines
60-68: promotions.json and loyalty_rules.json are absent from the sources,
so the in-code fallback objects are the live rules). -/
def tierRules (tier : String) : TierRule :=
  if tier = "bronze" then ⟨5, 1⟩
  else if tier = "silver" then ⟨10, 6/5⟩
  else if tier = "gold" then ⟨15, 3/2⟩
  else if tier = "platinum" then ⟨20, 2⟩
  else ⟨5, 1⟩

/-- A promotion entry as read by loyaltyAgent: an id and an optional flat
discount amount (none also stands for a value parseFloat cannot parse). -/
structure Promo where
  id : String
  flat_discount : Option ℚ
deriving DecidableEq, Repr

/-- A customer row as read by the orchestrator (src/server.js: fields id,
name, loyalty_tier, store_location, total_spend, last_seen_channel,
session_context; only the fields the embedded code reads are kept). -/
structure Customer where
  id : String
  name : String
  loyalty_tier : Option String
  store_location : String
  total_spend : ℚ
deriving DecidableEq, Repr

/-- The object returned by loyaltyAgent (src/server.js 556-561). -/
structure LoyaltyResult where
  discount : ℚ
  finalAmount : ℚ
  pointsEarned : ℤ
  loyaltyTier : String
deriving DecidableEq, Repr

/-- The coupon contribution to the discount (src/server.js 548-551):
`if (couponCode) { const promo = promotions.find(p => p.id === couponCode);
if (promo?.flat_discount) discount += parseFloat(promo.flat_discount) || 0 }`,
with JS truthiness of the coupon code and of the flat_discount value. -/
def couponDiscount (promotions : List Promo) (couponCode : Option String) : ℚ :=
  match couponCode with
  | none => 0
  | some code =>
    if code = "" then 0
    else
      match promotions.find? (fun p => p.id == code) with
      | none => 0
      | some promo =>
        match promo.flat_discount with
        | none => 0
        | some q => if q = 0 then 0 else q

/-- loyaltyAgent, src/server.js 541-561: tier defaulting via JS truthiness,
percentage discount from the tier rule, optional flat coupon discount,
`finalAmount = Math.max(0, cartTotal - discount)`, and points as
`Math.round(cartTotal * 0.1 * multiplier)` (Math.round is floor of x+1/2,
which is Mathlib round). -/
def loyaltyAgent (promotions : List Promo) (customer : Customer)
    (cartTotal : ℚ) (couponCode : Option String) : LoyaltyResult :=
  let tier := jsStrOr customer.loyalty_tier "bronze"
  let rules := tierRules tier
  let discount := cartTotal * rules.max_discount_percent / 100 +
    couponDiscount promotions couponCode
  let finalAmount := max 0 (cartTotal - discount)
  let pointsEarned := round (cartTotal * (1/10) * rules.points_multiplier)
  { discount := discount
    finalAmount := finalAmount
    pointsEarned := pointsEarned
    loyaltyTier := tier }

/-- Fulfillment-option derivation (src/server.js 372-384): push
"ship_to_home" when online stock is positive, push "click_and_collect" and
"reserve_in_store" when store stock is positive, and when nothing was
pushed default to ["ship_to_home"]. -/
def fulfillmentOptions (onlineStock storeStock : ℤ) : List String :=
  let options :=
    (if onlineStock > 0 then ["ship_to_home"] else []) ++
    (if storeStock > 0 then ["click_and_collect", "reserve_in_store"] else [])
  if options.length = 0 then ["ship_to_home"] else options

/-- A row of the inventory table as selected by checkInventory (sku,
location, stock; stock may be missing, `inv.stock || 0`). -/
structure InvRow where
  sku : String
  location : String
  stock : Option ℤ
deriving DecidableEq, Repr

/-- A per-sku entry of the inventoryMap built by checkInventory
(src/server.js 355-362). -/
structure ItemInfo where
  sku : String
  storeLocation : String
  onlineStock : ℤ
  storeStock : ℤ
  fulfillmentOptions : List String
deriving DecidableEq, Repr

/-- The per-row update of an inventoryMap entry (src/server.js 365-369):
an online_warehouse row sets onlineStock, a row at the customer location
sets storeStock, any other row is ignored. -/
def updateEntry (loc : String) (inv : InvRow) (it : ItemInfo) : ItemInfo :=
  if inv.location = "online_warehouse" then
    { it with onlineStock := jsIntOr inv.stock }
  else if inv.location = loc then
    { it with storeStock := jsIntOr inv.stock }
  else it

/-- One step of the forEach of src/server.js 354-370: create the map entry
for the row sku if absent (as a fresh zero-stock entry) and apply the row
update to it. The map is an association list in key-insertion order, which
is how a JS object iterates its values. -/
def insertRow (loc : String) (m : List ItemInfo) (inv : InvRow) : List ItemInfo :=
  if m.any (fun it => it.sku == inv.sku) then
    m.map (fun it => if it.sku == inv.sku then updateEntry loc inv it else it)
  else
    m ++ [updateEntry loc inv ⟨inv.sku, loc, 0, 0, []⟩]

/-- checkInventory, src/server.js 340-389, over an explicit inventory
table: select the rows whose sku is in the queried list (the
`.in("sku", skuList)` query), fold them into the per-sku map, then attach
the derived fulfillment options to every entry. -/
def checkInventory (table : List InvRow) (skuList : List String)
    (loc : String) : List ItemInfo :=
  let rows := table.filter (fun r => decide (r.sku ∈ skuList))
  let m := rows.foldl (insertRow loc) []
  m.map (fun it =>
    { it with fulfillmentOptions := fulfillmentOptions it.onlineStock it.storeStock })

/-- A cart line item {sku, qty, price, name} (spec data model; shape pushed
by POST /cart, src/server.js 1210-1216). -/
structure CartItem where
  sku : String
  qty : ℚ
  price : ℚ
  name : String
deriving DecidableEq, Repr

/-- Cart total `cart.reduce((sum, item) => sum + (item.price || 0) *
(item.qty || 1), 0)` (src/server.js 820). -/
def cartTotal (cart : List CartItem) : ℚ :=
  (cart.map (fun item => jsNumOr item.price 0 * jsNumOr item.qty 1)).sum

/-- The cart merge rule of POST /cart (src/server.js 1199-1217):
findIndex on the sku; when a line with the sku exists, increment its qty
in place; otherwise append a fresh line. -/
def addToCart : List CartItem → String → ℚ → ℚ → String → List CartItem
  | [], sku, qty, price, name => [⟨sku, qty, price, name⟩]
  | item :: rest, sku, qty, price, name =>
    if item.sku = sku then { item with qty := item.qty + qty } :: rest
    else item :: addToCart rest sku qty price name

/-- Total quantity carried by the lines of a given sku (used to state the
increment half of the merge rule). -/
def skuQty (cart : List CartItem) (s : String) : ℚ :=
  (cart.map (fun item => if item.sku = s then item.qty else 0)).sum

/-- The lastRecommended item reference (src/server.js 789-794). -/
structure RecItem where
  sku : String
  name : String
  category : String
deriving DecidableEq, Repr

/-- The object returned by paymentAgent (src/server.js 573-601); only the
fields the saga reads (status, message) are kept. -/
structure PaymentResult where
  status : String
  message : Option String
deriving DecidableEq, Repr

/-- The object returned by fulfillmentAgent (src/server.js 603-641); only
the fields the saga and the fallback reply read are kept. -/
structure FulfillmentResult where
  status : String
  message : Option String
deriving DecidableEq, Repr

/-- Observable effect set of one checkout turn: counters for the calls the
saga issues against the data store and the gateways, the worker-result
fields it fills, and the session state (cart, lastRecommended) it leaves
behind. cartAfter and lastRecommendedAfter are exactly what the
orchestrator then persists into the durable snapshot (src/server.js
904-909 and 979-980). ordersCreated counts successful order inserts
(createOrder returns null on insert error, src/server.js 411-415). -/
structure SagaEffects where
  checkoutError : Option String
  loyalty : Option LoyaltyResult
  paymentCalls : ℕ
  payment : Option PaymentResult
  orderCreateCalls : ℕ
  ordersCreated : ℕ
  paymentLogCalls : ℕ
  spendUpdateCalls : ℕ
  fulfillment : Option FulfillmentResult
  cartAfter : List CartItem
  lastRecommendedAfter : Option RecItem
deriving DecidableEq, Repr

/-- The checkout saga, src/server.js 815-875 (the "checkout" case of
runRetailOrchestrator), with the outcomes of the external calls passed in:
payRes is what paymentAgent returns when called, orderRes is what
createOrder returns (none on insert error), fulRes is what fulfillmentAgent
returns when called. Control flow, verbatim from the source: empty cart
short-circuits with the error object; otherwise price via loyaltyAgent
(coupon null) and call the payment gateway; only on payment status
"success" attempt the order insert; only on a non-null order id log the
payment, update the spend, schedule fulfillment and clear the cart and
lastRecommended (regardless of the fulfillment status). -/
def runCheckoutSaga (promotions : List Promo) (customer : Customer)
    (cart : List CartItem) (lastRecommended : Option RecItem)
    (payRes : PaymentResult) (orderRes : Option String)
    (fulRes : FulfillmentResult) : SagaEffects :=
  if cart.length = 0 then
    { checkoutError := some "Cart is empty"
      loyalty := none
      paymentCalls := 0
      payment := none
      orderCreateCalls := 0
      ordersCreated := 0
      paymentLogCalls := 0
      spendUpdateCalls := 0
      fulfillment := none
      cartAfter := cart
      lastRecommendedAfter := lastRecommended }
  else
    let loyalty := loyaltyAgent promotions customer (cartTotal cart) none
    if payRes.status = "success" then
      match orderRes with
      | some _ =>
        { checkoutError := none
          loyalty := some loyalty
          paymentCalls := 1
          payment := some payRes
          orderCreateCalls := 1
          ordersCreated := 1
          paymentLogCalls := 1
          spendUpdateCalls := 1
          fulfillment := some fulRes
          cartAfter := []
          lastRecommendedAfter := none }
      | none =>
        { checkoutError := none
          loyalty := some loyalty
          paymentCalls := 1
          payment := some payRes
          orderCreateCalls := 1
          ordersCreated := 0
          paymentLogCalls := 0
          spendUpdateCalls := 0
          fulfillment := none
          cartAfter := cart
          lastRecommendedAfter := lastRecommended }
    else
      { checkoutError := none
        loyalty := some loyalty
        paymentCalls := 1
        payment := some payRes
        orderCreateCalls := 0
        ordersCreated := 0
        paymentLogCalls := 0
        spendUpdateCalls := 0
        fulfillment := none
        cartAfter := cart
        lastRecommendedAfter := lastRecommended }

/-- The deterministic checkout reply used when OpenAI is unavailable
(src/server.js 925-933), evaluated on the post-saga state: note it reads
the post-saga cart and the payment status, not the order outcome. -/
def checkoutFallbackReply (eff : SagaEffects) : String :=
  if eff.cartAfter.length = 0 then
    "Your cart is empty. Add some items first!"
  else if eff.payment.map PaymentResult.status = some "success" then
    "Payment successful! Order placed. " ++
      jsStrOr (eff.fulfillment.bind FulfillmentResult.message)
        "Thank you for your purchase!"
  else
    "Ready to checkout! Your cart total is " ++ toString (cartTotal eff.cartAfter)

/-- Channel-switch detection `lastChannel && lastChannel !== channel`
(src/server.js 758-759), as the truthiness of the JS expression: null and
the empty string are falsy. -/
def channelSwitched (lastChannel : Option String) (channel : String) : Bool :=
  match lastChannel with
  | none => false
  | some lc => if lc = "" then false else lc != channel

/-- Sample gold-tier customer used by the concrete theorems. -/
def custEx : Customer :=
  { id := "cust_1"
    name := "Asha"
    loyalty_tier := some "gold"
    store_location := "Mumbai"
    total_spend := 0 }

/-- Sample cart line used by the concrete theorems. -/
def itemEx : CartItem :=
  { sku := "SKU-1", qty := 1, price := 2000, name := "Silk Kurta" }

/-- Sample lastRecommended reference used by the concrete theorems. -/
def recEx : RecItem :=
  { sku := "SKU-9", name := "Linen Shirt", category := "shirts" }

/-- A successful payment gateway outcome (src/server.js 586-592). -/
def paySuccessEx : PaymentResult :=
  { status := "success", message := some "Payment processed successfully" }

/-- A declined payment gateway outcome (src/server.js 577-584). -/
def payDeclinedEx : PaymentResult :=
  { status := "declined", message := none }

/-- A failed fulfillment outcome (src/server.js 607-612). -/
def fulFailedEx : FulfillmentResult :=
  { status := "failed", message := none }

/-- Claim C4: for every promotion table, customer, cart total and optional
coupon, loyaltyAgent returns finalAmount = max 0 (cartTotal - discount), so
finalAmount is always non-negative, and the discount is exactly the tier
percentage of the cart total plus the optional flat coupon amount. -/
theorem claim4_loyalty_final_amount (promotions : List Promo)
    (customer : Customer) (total : ℚ) (couponCode : Option String) :
    (loyaltyAgent promotions customer total couponCode).finalAmount =
      max 0 (total - (loyaltyAgent promotions customer total couponCode).discount) ∧
    0 ≤ (loyaltyAgent promotions customer total couponCode).finalAmount ∧
    (loyaltyAgent promotions customer total couponCode).discount =
      total * (tierRules (jsStrOr customer.loyalty_tier "bronze")).max_discount_percent / 100 +
        couponDiscount promotions couponCode := by
  refine ⟨rfl, ?_, rfl⟩
  exact le_max_left 0 _

/-- Claim C5: the fulfillment-option derivation is a pure function of
(onlineStock, storeStock): positive online stock puts "ship_to_home" in the
set, positive store stock puts "click_and_collect" and "reserve_in_store"
in the set, and when neither is positive the result defaults to
["ship_to_home"], so the option set is always non-empty. -/
theorem claim5_fulfillment_options (onlineStock storeStock : ℤ) :
    fulfillmentOptions onlineStock storeStock ≠ [] ∧
    (onlineStock > 0 → "ship_to_home" ∈ fulfillmentOptions onlineStock storeStock) ∧
    (storeStock > 0 →
      "click_and_collect" ∈ fulfillmentOptions onlineStock storeStock ∧
      "reserve_in_store" ∈ fulfillmentOptions onlineStock storeStock) ∧
    (¬ onlineStock > 0 → ¬ storeStock > 0 →
      fulfillmentOptions onlineStock storeStock = ["ship_to_home"]) := by
  by_cases ho : onlineStock > 0 <;> by_cases hs : storeStock > 0 <;>
    simp [fulfillmentOptions, ho, hs]

/-- Witness for claim C5 at concrete stock levels. -/
theorem claim5_fulfillment_options_witness :
    ((5:ℤ) > 0 ∧ "ship_to_home" ∈ fulfillmentOptions 5 0) ∧
    (¬ (0:ℤ) > 0 ∧ fulfillmentOptions 0 0 = ["ship_to_home"]) := by
  refine ⟨⟨by decide, (claim5_fulfillment_options 5 0).2.1 (by decide)⟩,
    ⟨by decide, (claim5_fulfillment_options 0 0).2.2.2 (by decide) (by decide)⟩⟩

/-- Claim C6: a checkout turn whose working cart is empty aborts with the
cart-empty result, with no pricing, no payment call, no order insert, no
payment log and no spend update. -/
theorem claim6_empty_cart_aborts (promotions : List Promo) (customer : Customer)
    (lastRec : Option RecItem) (payRes : PaymentResult)
    (orderRes : Option String) (fulRes : FulfillmentResult) :
    (runCheckoutSaga promotions customer [] lastRec payRes orderRes fulRes).checkoutError =
        some "Cart is empty" ∧
    (runCheckoutSaga promotions customer [] lastRec payRes orderRes fulRes).loyalty = none ∧
    (runCheckoutSaga promotions customer [] lastRec payRes orderRes fulRes).paymentCalls = 0 ∧
    (runCheckoutSaga promotions customer [] lastRec payRes orderRes fulRes).payment = none ∧
    (runCheckoutSaga promotions customer [] lastRec payRes orderRes fulRes).orderCreateCalls = 0 ∧
    (runCheckoutSaga promotions customer [] lastRec payRes orderRes fulRes).ordersCreated = 0 ∧
    (runCheckoutSaga promotions customer [] lastRec payRes orderRes fulRes).paymentLogCalls = 0 ∧
    (runCheckoutSaga promotions customer [] lastRec payRes orderRes fulRes).spendUpdateCalls = 0 ∧
    (runCheckoutSaga promotions customer [] lastRec payRes orderRes fulRes).fulfillment = none ∧
    (runCheckoutSaga promotions customer [] lastRec payRes orderRes fulRes).lastRecommendedAfter =
      lastRec :=
  ⟨rfl, rfl, rfl, rfl, rfl, rfl, rfl, rfl, rfl, rfl⟩

/-- Counterexample to claim C8 as stated: an empty-string last-seen channel
is non-null and differs from the current channel "web", yet the code's
truthiness test computes a falsy channelSwitched. -/
theorem claim8_counterexample :
    channelSwitched (some "") "web" = false ∧
    (some "" : Option String) ≠ none ∧ ("" : String) ≠ "web" :=
  ⟨rfl, by simp, by decide⟩

/-- Claim C8 (amended): channelSwitched is true iff the last-seen channel
is non-null, non-empty (JS truthiness) and differs from the current
channel; in particular it is false on a first-ever turn where lastChannel
is null. -/
theorem claim8_amended_channel_switch (lastChannel : Option String) (channel : String) :
    (channelSwitched lastChannel channel = true ↔
      ∃ lc, lastChannel = some lc ∧ lc ≠ "" ∧ lc ≠ channel) ∧
    channelSwitched none channel = false := by
  refine ⟨?_, rfl⟩
  cases lastChannel with
  | none => simp [channelSwitched]
  | some lc =>
    by_cases h : lc = ""
    · simp [channelSwitched, h]
    · simp [channelSwitched, h, bne_iff_ne]

/-- Witness for claim C8 at concrete channels. -/
theorem claim8_amended_channel_switch_witness :
    channelSwitched (some "web") "kiosk" = true ∧ channelSwitched none "web" = false := by
  refine ⟨?_, (claim8_amended_channel_switch none "web").2⟩
  exact (claim8_amended_channel_switch (some "web") "kiosk").1.mpr
    ⟨"web", rfl, by decide, by decide⟩

/-- Counterexample to claim C7 as stated: when the external classifier
throws, the code returns the default plan from the catch block without
running the keyword matcher, so the utterance that the keyword matcher
would classify as check_inventory comes back as recommend. -/
theorem claim7_counterexample :
    (classifyIntent .threw "is this in stock").intent = "recommend" ∧
    (keywordClassify "is this in stock").intent = "check_inventory" ∧
    ("recommend" : String) ≠ "check_inventory" :=
  ⟨rfl, by decide, by decide⟩

/-- Claim C7 (amended): when the external classification capability is
unavailable (not configured), classification runs the deterministic keyword
matcher over the lower-cased utterance and in particular maps
"is this in stock" to check_inventory; the matcher is a total function and
falls through to the recommend default when no keyword matches; when the
capability throws, classification instead returns the default recommend
plan directly. -/
theorem claim7_amended_fallback (q : String) :
    classifyIntent .unavailable q = keywordClassify q ∧
    classifyIntent .threw q = defaultIntent ∧
    (strIncludes (toLowerStr q) "stock" = true →
      (classifyIntent .unavailable q).intent = "check_inventory") ∧
    (strIncludes (toLowerStr q) "stock" = false →
     strIncludes (toLowerStr q) "available" = false →
     strIncludes (toLowerStr q) "inventory" = false →
     strIncludes (toLowerStr q) "buy" = false →
     strIncludes (toLowerStr q) "purchase" = false →
     strIncludes (toLowerStr q) "checkout" = false →
     strIncludes (toLowerStr q) "pay" = false →
     strIncludes (toLowerStr q) "order" = false →
     strIncludes (toLowerStr q) "status" = false →
     strIncludes (toLowerStr q) "track" = false →
     strIncludes (toLowerStr q) "return" = false →
     strIncludes (toLowerStr q) "hi" = false →
     strIncludes (toLowerStr q) "hello" = false →
     strIncludes (toLowerStr q) "hey" = false →
      classifyIntent .unavailable q = defaultIntent) ∧
    (classifyIntent .unavailable "is this in stock").intent = "check_inventory" := by
  refine ⟨rfl, rfl, ?_, ?_, by decide⟩
  · intro h
    simp [classifyIntent, keywordClassify, h]
  · intro h1 h2 h3 h4 h5 h6 h7 h8 h9 h10 h11 h12 h13 h14
    simp [classifyIntent, keywordClassify,
      h1, h2, h3, h4, h5, h6, h7, h8, h9, h10, h11, h12, h13, h14]

/-- Witness for claim C7 at a concrete utterance without any keyword. -/
theorem claim7_amended_fallback_witness :
    (classifyIntent .unavailable "is this in stock").intent = "check_inventory" ∧
    (classifyIntent .unavailable "a red dress for a festival").intent = "recommend" := by
  refine ⟨(claim7_amended_fallback "is this in stock").2.2.2.2, ?_⟩
  have h := (claim7_amended_fallback "a red dress for a festival").2.2.2.1
    (by decide) (by decide) (by decide) (by decide) (by decide) (by decide) (by decide)
    (by decide) (by decide) (by decide) (by decide) (by decide) (by decide) (by decide)
  rw [h]
  rfl

/-- Claim C2: a checkout turn in which the payment gateway declines creates
no order, logs no payment record, makes no spend-update attempt, and
leaves the cart and lastRecommended of the persisted snapshot unchanged. -/
theorem claim2_decline_no_effects (promotions : List Promo) (customer : Customer)
    (cart : List CartItem) (lastRec : Option RecItem) (payRes : PaymentResult)
    (orderRes : Option String) (fulRes : FulfillmentResult)
    (hpay : payRes.status = "declined") :
    (runCheckoutSaga promotions customer cart lastRec payRes orderRes fulRes).orderCreateCalls = 0 ∧
    (runCheckoutSaga promotions customer cart lastRec payRes orderRes fulRes).ordersCreated = 0 ∧
    (runCheckoutSaga promotions customer cart lastRec payRes orderRes fulRes).paymentLogCalls = 0 ∧
    (runCheckoutSaga promotions customer cart lastRec payRes orderRes fulRes).spendUpdateCalls = 0 ∧
    (runCheckoutSaga promotions customer cart lastRec payRes orderRes fulRes).cartAfter = cart ∧
    (runCheckoutSaga promotions customer cart lastRec payRes orderRes fulRes).lastRecommendedAfter =
      lastRec := by
  have hne : payRes.status ≠ "success" := by rw [hpay]; decide
  by_cases h : cart.length = 0 <;> simp [runCheckoutSaga, h, hne]

/-- Witness for claim C2: a concrete declined checkout turn. -/
theorem claim2_decline_no_effects_witness :
    payDeclinedEx.status = "declined" ∧
    (runCheckoutSaga [] custEx [itemEx] (some recEx) payDeclinedEx none fulFailedEx).cartAfter =
      [itemEx] :=
  ⟨rfl, (claim2_decline_no_effects [] custEx [itemEx] (some recEx) payDeclinedEx none
    fulFailedEx rfl).2.2.2.2.1⟩

/-- Counterexample to claim C1 as stated: a checkout turn with a non-empty
cart and a successful payment in which the order insert fails (createOrder
returns null) produces no order record, no payment-record write, no
spend-update attempt, and leaves the cart and lastRecommended untouched,
so payment success alone does not yield the claimed effect set. -/
theorem claim1_counterexample :
    paySuccessEx.status = "success" ∧ ([itemEx] : List CartItem) ≠ [] ∧
    (runCheckoutSaga [] custEx [itemEx] (some recEx) paySuccessEx none fulFailedEx).ordersCreated = 0 ∧
    (runCheckoutSaga [] custEx [itemEx] (some recEx) paySuccessEx none fulFailedEx).paymentLogCalls = 0 ∧
    (runCheckoutSaga [] custEx [itemEx] (some recEx) paySuccessEx none fulFailedEx).spendUpdateCalls = 0 ∧
    (runCheckoutSaga [] custEx [itemEx] (some recEx) paySuccessEx none fulFailedEx).cartAfter = [itemEx] ∧
    (runCheckoutSaga [] custEx [itemEx] (some recEx) paySuccessEx none fulFailedEx).lastRecommendedAfter =
      some recEx :=
  ⟨rfl, by simp, rfl, rfl, rfl, rfl, rfl⟩

/-- Claim C1 (amended): in a checkout turn with a non-empty cart where the
payment gateway returns success and the order insert returns an order id,
the saga creates exactly one order record, issues exactly one
payment-record write and one spend-update attempt, records the fulfillment
outcome, clears the cart and resets lastRecommended — for every
fulfillment outcome, including a failed one. -/
theorem claim1_amended_commit_effects (promotions : List Promo)
    (customer : Customer) (cart : List CartItem) (lastRec : Option RecItem)
    (payRes : PaymentResult) (oid : String) (fulRes : FulfillmentResult)
    (hcart : cart ≠ []) (hpay : payRes.status = "success") :
    (runCheckoutSaga promotions customer cart lastRec payRes (some oid) fulRes).ordersCreated = 1 ∧
    (runCheckoutSaga promotions customer cart lastRec payRes (some oid) fulRes).orderCreateCalls = 1 ∧
    (runCheckoutSaga promotions customer cart lastRec payRes (some oid) fulRes).paymentLogCalls = 1 ∧
    (runCheckoutSaga promotions customer cart lastRec payRes (some oid) fulRes).spendUpdateCalls = 1 ∧
    (runCheckoutSaga promotions customer cart lastRec payRes (some oid) fulRes).fulfillment =
      some fulRes ∧
    (runCheckoutSaga promotions customer cart lastRec payRes (some oid) fulRes).cartAfter = [] ∧
    (runCheckoutSaga promotions customer cart lastRec payRes (some oid) fulRes).lastRecommendedAfter =
      none := by
  have hlen : ¬ cart.length = 0 := by
    simpa [List.length_eq_zero] using hcart
  simp [runCheckoutSaga, hlen, hpay]

/-- Witness for claim C1: a concrete committed checkout with a failed
fulfillment outcome. -/
theorem claim1_amended_commit_effects_witness :
    (([itemEx] : List CartItem) ≠ [] ∧ paySuccessEx.status = "success" ∧
      fulFailedEx.status = "failed") ∧
    (runCheckoutSaga [] custEx [itemEx] (some recEx) paySuccessEx (some "ORD-1") fulFailedEx).cartAfter =
      [] :=
  ⟨⟨by simp, rfl, rfl⟩,
    (claim1_amended_commit_effects [] custEx [itemEx] (some recEx) paySuccessEx "ORD-1"
      fulFailedEx (by simp) rfl).2.2.2.2.2.1⟩

/-- Claim C3 (code bug): when payment succeeds but the order insert fails,
the turn result carries no inconsistency flag at all — the checkout error
field is empty, the worker result holds just the loyalty and the successful
payment, and the deterministic reply even announces a placed order; the
cart is indeed not cleared and no payment record or spend update is
written, but nothing distinct from a plain decline is surfaced. -/
theorem claim3_saga_inconsistency_swallowed :
    (runCheckoutSaga [] custEx [itemEx] (some recEx) paySuccessEx none fulFailedEx).payment =
      some paySuccessEx ∧
    (runCheckoutSaga [] custEx [itemEx] (some recEx) paySuccessEx none fulFailedEx).orderCreateCalls = 1 ∧
    (runCheckoutSaga [] custEx [itemEx] (some recEx) paySuccessEx none fulFailedEx).ordersCreated = 0 ∧
    (runCheckoutSaga [] custEx [itemEx] (some recEx) paySuccessEx none fulFailedEx).checkoutError =
      none ∧
    (runCheckoutSaga [] custEx [itemEx] (some recEx) paySuccessEx none fulFailedEx).fulfillment =
      none ∧
    (runCheckoutSaga [] custEx [itemEx] (some recEx) paySuccessEx none fulFailedEx).paymentLogCalls = 0 ∧
    (runCheckoutSaga [] custEx [itemEx] (some recEx) paySuccessEx none fulFailedEx).spendUpdateCalls = 0 ∧
    (runCheckoutSaga [] custEx [itemEx] (some recEx) paySuccessEx none fulFailedEx).cartAfter =
      [itemEx] ∧
    checkoutFallbackReply
        (runCheckoutSaga [] custEx [itemEx] (some recEx) paySuccessEx none fulFailedEx) =
      "Payment successful! Order placed. Thank you for your purchase!" :=
  ⟨rfl, rfl, rfl, rfl, rfl, rfl, rfl, rfl, by decide⟩

theorem addToCart_skus_of_mem (cart : List CartItem) (sku : String) (qty price : ℚ)
    (name : String) (h : sku ∈ cart.map CartItem.sku) :
    (addToCart cart sku qty price name).map CartItem.sku = cart.map CartItem.sku := by
  induction cart with
  | nil => simp at h
  | cons item rest ih =>
    by_cases hi : item.sku = sku
    · simp [addToCart, hi]
    · have hmem : sku ∈ rest.map CartItem.sku := by
        rcases (by simpa using h : sku = item.sku ∨ sku ∈ rest.map CartItem.sku) with h1 | h1
        · exact absurd h1.symm hi
        · exact h1
      simp [addToCart, hi, ih hmem]

theorem addToCart_skuQty (cart : List CartItem) (sku : String) (qty price : ℚ)
    (name : String) :
    skuQty (addToCart cart sku qty price name) sku = skuQty cart sku + qty := by
  induction cart with
  | nil => simp [addToCart, skuQty]
  | cons item rest ih =>
    by_cases hi : item.sku = sku
    · simp only [addToCart, hi, if_pos, skuQty, List.map_cons, List.sum_cons]
      ring
    · simp only [addToCart, hi, if_neg, ite_false, skuQty, List.map_cons, List.sum_cons]
      simp only [skuQty] at ih
      rw [ih]
      ring

theorem addToCart_of_not_mem (cart : List CartItem) (sku : String) (qty price : ℚ)
    (name : String) (h : sku ∉ cart.map CartItem.sku) :
    addToCart cart sku qty price name = cart ++ [⟨sku, qty, price, name⟩] := by
  induction cart with
  | nil => rfl
  | cons item rest ih =>
    have hi : ¬ item.sku = sku := fun he => h (by simp [he])
    have hrest : sku ∉ rest.map CartItem.sku := fun hm => h (by simp [hm])
    simp [addToCart, hi, ih hrest]

theorem addToCart_nodup (cart : List CartItem) (sku : String) (qty price : ℚ)
    (name : String) (h : (cart.map CartItem.sku).Nodup) :
    ((addToCart cart sku qty price name).map CartItem.sku).Nodup := by
  by_cases hm : sku ∈ cart.map CartItem.sku
  · rw [addToCart_skus_of_mem cart sku qty price name hm]
    exact h
  · rw [addToCart_of_not_mem cart sku qty price name hm]
    rw [List.map_append]
    refine List.Nodup.append h (List.nodup_singleton _) ?_
    intro x hx hxa
    simp at hxa
    subst hxa
    exact hm hx

/-- Claim C9: the cart merge rule keeps skus unique — when the cart already
holds a line with the requested sku, the add leaves the sku sequence
unchanged and increments that line, adding the requested quantity to the
total carried by that sku; uniqueness of skus is preserved; and adding
the line (sku S1, qty 1) twice to an empty cart yields a single line with
qty 2, not two lines. -/
theorem claim9_cart_merge (cart : List CartItem) (sku : String) (qty price : ℚ)
    (name : String) :
    (sku ∈ cart.map CartItem.sku →
      (addToCart cart sku qty price name).map CartItem.sku = cart.map CartItem.sku ∧
      skuQty (addToCart cart sku qty price name) sku = skuQty cart sku + qty) ∧
    ((cart.map CartItem.sku).Nodup →
      ((addToCart cart sku qty price name).map CartItem.sku).Nodup) ∧
    addToCart (addToCart [] "S1" 1 499 "Shirt") "S1" 1 499 "Shirt" =
      [⟨"S1", 2, 499, "Shirt"⟩] := by
  refine ⟨fun h => ⟨addToCart_skus_of_mem cart sku qty price name h,
      addToCart_skuQty cart sku qty price name⟩,
    addToCart_nodup cart sku qty price name, ?_⟩
  norm_num [addToCart]

/-- Witness for claim C9: merging into a one-line cart that already holds
the sku keeps the single line. -/
theorem claim9_cart_merge_witness :
    ("S1" ∈ ([⟨"S1", 1, 499, "Shirt"⟩] : List CartItem).map CartItem.sku) ∧
    (addToCart [⟨"S1", 1, 499, "Shirt"⟩] "S1" 1 499 "Shirt").map CartItem.sku = ["S1"] := by
  refine ⟨by simp, ?_⟩
  have h := (claim9_cart_merge [⟨"S1", 1, 499, "Shirt"⟩] "S1" 1 499 "Shirt").1 (by simp)
  simpa using h.1

theorem updateEntry_sku (loc : String) (inv : InvRow) (it : ItemInfo) :
    (updateEntry loc inv it).sku = it.sku := by
  unfold updateEntry
  split_ifs <;> rfl

theorem mapUpdate_skus (loc : String) (inv : InvRow) (m : List ItemInfo) :
    (m.map (fun it => if it.sku == inv.sku then updateEntry loc inv it else it)).map
        ItemInfo.sku = m.map ItemInfo.sku := by
  induction m with
  | nil => rfl
  | cons i rest ih =>
    simp only [List.map_cons, ih]
    congr 1
    by_cases hik : i.sku = inv.sku <;> simp [hik, updateEntry_sku]

theorem any_sku_iff (m : List ItemInfo) (s : String) :
    (m.any fun it => it.sku == s) = true ↔ s ∈ m.map ItemInfo.sku := by
  simp [List.any_eq_true, List.mem_map]

theorem insertRow_skus (loc : String) (m : List ItemInfo) (inv : InvRow) :
    (insertRow loc m inv).map ItemInfo.sku =
      if inv.sku ∈ m.map ItemInfo.sku then m.map ItemInfo.sku
      else m.map ItemInfo.sku ++ [inv.sku] := by
  unfold insertRow
  by_cases h : inv.sku ∈ m.map ItemInfo.sku
  · rw [if_pos ((any_sku_iff m inv.sku).mpr h), if_pos h, mapUpdate_skus]
  · rw [if_neg (fun hc => h ((any_sku_iff m inv.sku).mp hc)), if_neg h]
    simp [updateEntry_sku]

theorem foldl_skus_mem (loc : String) (rows : List InvRow) (m : List ItemInfo)
    (s : String) :
    s ∈ ((rows.foldl (insertRow loc) m).map ItemInfo.sku) ↔
      s ∈ m.map ItemInfo.sku ∨ s ∈ rows.map InvRow.sku := by
  induction rows generalizing m with
  | nil => simp
  | cons r rows ih =>
    rw [List.foldl_cons, ih, insertRow_skus]
    by_cases h : r.sku ∈ m.map ItemInfo.sku
    · rw [if_pos h]
      simp only [List.map_cons, List.mem_cons]
      constructor
      · rintro (hs | hs)
        · exact Or.inl hs
        · exact Or.inr (Or.inr hs)
      · rintro (hs | hs | hs)
        · exact Or.inl hs
        · subst hs
          exact Or.inl h
        · exact Or.inr hs
    · rw [if_neg h]
      simp [List.mem_append, or_assoc]

theorem foldl_skus_nodup (loc : String) (rows : List InvRow) (m : List ItemInfo)
    (h : (m.map ItemInfo.sku).Nodup) :
    ((rows.foldl (insertRow loc) m).map ItemInfo.sku).Nodup := by
  induction rows generalizing m with
  | nil => simpa using h
  | cons r rows ih =>
    rw [List.foldl_cons]
    apply ih
    rw [insertRow_skus]
    by_cases hm : r.sku ∈ m.map ItemInfo.sku
    · rw [if_pos hm]
      exact h
    · rw [if_neg hm]
      refine List.Nodup.append h (List.nodup_singleton _) ?_
      intro x hx hxa
      rw [List.mem_singleton] at hxa
      subst hxa
      exact hm hx

theorem countP_sku_eq_count (m : List ItemInfo) (s : String) :
    (m.countP fun it => it.sku == s) = (m.map ItemInfo.sku).count s := by
  induction m with
  | nil => rfl
  | cons i rest ih =>
    simp only [List.map_cons, List.countP_cons, List.count_cons, ih]

/-- Claim C10: for every inventory table, queried sku list and store
location, checkInventory returns exactly one entry for a queried sku that
has at least one row in the table, and no entry at all for a queried sku
with no rows (such skus are silently omitted, not reported with zero
stock). -/
theorem claim10_inventory_entries (table : List InvRow) (skuList : List String)
    (loc : String) (s : String) :
    ((checkInventory table skuList loc).countP fun it => it.sku == s) =
      if s ∈ skuList ∧ ∃ r ∈ table, r.sku = s then 1 else 0 := by
  unfold checkInventory
  rw [List.countP_map]
  have hpres : ((fun it : ItemInfo => it.sku == s) ∘ fun it =>
      { it with fulfillmentOptions := fulfillmentOptions it.onlineStock it.storeStock }) =
      fun it : ItemInfo => it.sku == s := rfl
  rw [hpres, countP_sku_eq_count]
  have hnodup := foldl_skus_nodup loc (table.filter fun r => decide (r.sku ∈ skuList)) []
    (by simp)
  have hmem : s ∈ (((table.filter fun r => decide (r.sku ∈ skuList)).foldl
      (insertRow loc) []).map ItemInfo.sku) ↔
      s ∈ skuList ∧ ∃ r ∈ table, r.sku = s := by
    rw [foldl_skus_mem]
    simp only [List.map_nil, List.not_mem_nil, false_or, List.mem_map, List.mem_filter,
      decide_eq_true_eq]
    constructor
    · rintro ⟨r, ⟨hrt, hrs⟩, rfl⟩
      exact ⟨hrs, r, hrt, rfl⟩
    · rintro ⟨hsl, r, hrt, rfl⟩
      exact ⟨r, ⟨hrt, hsl⟩, rfl⟩
  by_cases hs : s ∈ skuList ∧ ∃ r ∈ table, r.sku = s
  · rw [if_pos hs]
    exact List.count_eq_one_of_mem hnodup (hmem.mpr hs)
  · rw [if_neg hs]
    exact List.count_eq_zero_of_not_mem (fun hc => hs (hmem.mp hc))

end Retail
